import Mathlib

/-!
Verification of the connection-pool / retry subsystem of the Mooda
repository (`src/utils/db_connection/db_connection.py`) and of the login
consumer (`src/utils/login/login.py`).

The Python code talks to an external MySQL driver (`mysql.connector`).
We embed each repository function as a pure Lean function over an explicit
model of the driver interactions: every driver call that can fail is an
input of type `Option PyError` / `Except PyError _` describing the outcome
the driver would produce, and the Lean function reproduces the Python
control flow (try/except, retry loop, state updates) on those outcomes.
Python exceptions that propagate out of a repository function are
modelled with `Except`; a function whose Python body catches all
exceptions returns `Except.ok` on every path, which is how "never raises"
is stated and proved.
-/

namespace Mooda

/-- A Python exception value.  `caught` records whether the exception is an
instance of `mysql.connector.Error` (the class matched by the repository's
`except (Error, mysql.connector.errors.InterfaceError)` clauses;
`InterfaceError` is a subclass of `Error`, so that tuple matches exactly
the `Error` hierarchy).  `msg` is `str(e)`. -/
structure PyError where
  caught : Bool
  msg : String
deriving DecidableEq

/-- Lower-case a character list (models `str.lower()` on the ASCII
messages produced by the driver). -/
def lowerChars (cs : List Char) : List Char := cs.map Char.toLower

/-- Upper-case a character list (models `str.upper()`). -/
def upperChars (cs : List Char) : List Char := cs.map Char.toUpper

/-- `listStartsWith pat cs` models Python `cs.startswith(pat)`. -/
def listStartsWith : List Char → List Char → Bool
  | [], _ => true
  | _ :: _, [] => false
  | p :: ps, c :: cs => p == c && listStartsWith ps cs

/-- `listContainsSub pat cs` models Python `pat in cs` (substring test). -/
def listContainsSub : List Char → List Char → Bool
  | pat, [] => pat.isEmpty
  | pat, c :: cs => listStartsWith pat (c :: cs) || listContainsSub pat cs

/-- The message test at line 38 of `db_connection.py`:
`"connection" in str(e).lower() or "interface" in str(e).lower()`. -/
def isConnMsg (msg : String) : Bool :=
  listContainsSub ("connection".toList) (lowerChars msg.toList) ||
  listContainsSub ("interface".toList) (lowerChars msg.toList)

/-- Outcome of one invocation of the function wrapped by
`retry_operation`: it either returns a value or raises an exception. -/
inductive Outcome (α : Type) where
  | ok (v : α)
  | err (e : PyError)
deriving DecidableEq

/-- Observable side effects of the retry wrapper: an invocation of the
wrapped function, a `time.sleep(t)`, or a call to
`args[0]._reconnect_pool()`. -/
inductive Event where
  | call
  | sleep (t : Nat)
  | reconnect
deriving DecidableEq

/-- Result of running the wrapper: a normal return value, the final
`return None` fall-through of the loop (reachable only when
`max_retries = 0`), or a propagated exception. -/
inductive RunResult (α : Type) where
  | ret (v : α)
  | fallthrough
  | raised (e : PyError)
deriving DecidableEq

/-- The body of `retry_operation`'s `while retries < max_retries` loop
(lines 22-41 of `db_connection.py`).  `retries` is the Python counter at
loop entry and `fuel = max_retries - retries` counts the remaining
iterations.  `attempts k` is the outcome the wrapped function produces on
its `k`-th invocation (0-indexed).  `hasReconnect` is
`args and hasattr(args[0], '_reconnect_pool')`: true for the bound
instance methods of `DBConnection`, false for the static
`execute_quick_query`, whose first positional argument is the query
string. -/
def retryAux (delay backoff : Nat) (hasReconnect : Bool)
    (attempts : Nat → Outcome α) : Nat → Nat → RunResult α × List Event
  | _, 0 => (RunResult.fallthrough, [])
  | retries, fuel + 1 =>
    match attempts retries with
    | Outcome.ok v => (RunResult.ret v, [Event.call])
    | Outcome.err e =>
      if e.caught then
        -- retries += 1; if retries == max_retries: raise e
        if fuel = 0 then (RunResult.raised e, [Event.call])
        else
          -- wait_time = delay * (backoff ** (retries - 1)) with the
          -- incremented counter, i.e. backoff ^ (old retries)
          let wait := delay * backoff ^ retries
          let evs :=
            if isConnMsg e.msg && hasReconnect then
              [Event.call, Event.sleep wait, Event.reconnect]
            else
              [Event.call, Event.sleep wait]
          let next := retryAux delay backoff hasReconnect attempts (retries + 1) fuel
          (next.1, evs ++ next.2)
      else
        -- exceptions outside the (Error, InterfaceError) tuple propagate
        (RunResult.raised e, [Event.call])

/-- `retry_operation(max_retries, delay, backoff)` applied to a wrapped
function whose successive invocation outcomes are `attempts`
(lines 18-43 of `db_connection.py`).  All decorated call sites use
`max_retries=3, delay=2` and the default `backoff=2`. -/
def retry_operation (maxRetries delay backoff : Nat) (hasReconnect : Bool)
    (attempts : Nat → Outcome α) : RunResult α × List Event :=
  retryAux delay backoff hasReconnect attempts 0 maxRetries

/-- Number of invocations of the wrapped function in an event trace. -/
def callCount (evs : List Event) : Nat :=
  (evs.filter fun e => e == Event.call).length

/-- Number of backoff sleeps in an event trace. -/
def sleepCount (evs : List Event) : Nat :=
  (evs.filter fun e => match e with | Event.sleep _ => true | _ => false).length

/-- Number of pool reconnections in an event trace. -/
def reconnectCount (evs : List Event) : Nat :=
  (evs.filter fun e => e == Event.reconnect).length

/-- The sequence of sleep durations in an event trace, in order. -/
def sleepTimes (evs : List Event) : List Nat :=
  evs.filterMap fun e => match e with | Event.sleep t => some t | _ => none

/-- `hasattr(args[0], '_reconnect_pool')` for the static method
`DBConnection.execute_quick_query`: its first positional argument is the
query string, which has no `_reconnect_pool` attribute. -/
def quickQueryHasReconnect : Bool := false

/-- `hasattr(args[0], '_reconnect_pool')` for the bound instance methods
`execute_query`, `fetch_one`, `fetch_all`: `args[0]` is the
`DBConnection` instance, which defines `_reconnect_pool`. -/
def instanceHasReconnect : Bool := true

/-- A SQL syntax error as raised by the driver: an instance of
`mysql.connector.errors.ProgrammingError`, which is a subclass of
`mysql.connector.Error`, hence matched by the decorator's except clause;
its message contains neither "connection" nor "interface". -/
def badSqlErr : PyError := ⟨true, "1064: bad SQL"⟩

/-- Splitting `sleepCount` over a concatenation of traces. -/
theorem sleepCount_append (xs ys : List Event) :
    sleepCount (xs ++ ys) = sleepCount xs + sleepCount ys := by
  simp [sleepCount, List.filter_append]

/-- C1 counterexample: a SQL syntax error (a `mysql.connector.Error` whose
message names neither "connection" nor "interface") raised on every
attempt of a wrapped instance method is retried twice, with two backoff
sleeps, before it propagates — not zero additional invocations and zero
sleeps as the claim states. -/
theorem claim_C1_counterexample :
    isConnMsg badSqlErr.msg = false ∧
    (retry_operation 3 2 2 instanceHasReconnect (fun _ => Outcome.err badSqlErr) :
        RunResult Nat × List Event) =
      (RunResult.raised badSqlErr,
       [Event.call, Event.sleep 2, Event.call, Event.sleep 4, Event.call]) ∧
    callCount [Event.call, Event.sleep 2, Event.call, Event.sleep 4, Event.call] = 3 ∧
    sleepCount [Event.call, Event.sleep 2, Event.call, Event.sleep 4, Event.call] = 2 := by
  decide

/-- C1 (amended): the class of errors that is never retried is the class
of exceptions outside the `mysql.connector.Error` hierarchy — such an
exception raised on the first attempt propagates at once, after exactly
one invocation and no sleep; any `mysql.connector.Error`, SQL syntax and
constraint violations included, is retried with at least one backoff
sleep. -/
theorem claim_C1 (hr : Bool) (attempts : Nat → Outcome α) (e : PyError)
    (h0 : attempts 0 = Outcome.err e) :
    (e.caught = false →
      retry_operation 3 2 2 hr attempts = (RunResult.raised e, [Event.call])) ∧
    (e.caught = true →
      1 ≤ sleepCount (retry_operation 3 2 2 hr attempts).2) := by
  constructor
  · intro hc
    simp [retry_operation, retryAux, h0, hc]
  · intro hc
    cases hb : (isConnMsg e.msg && hr) <;>
      simp [retry_operation, retryAux, h0, hc, hb, sleepCount_append, sleepCount]

/-- Witness for C1 at a concrete non-`Error` exception. -/
theorem claim_C1_witness :
    retry_operation 3 2 2 true (fun _ => (Outcome.err ⟨false, "boom"⟩ : Outcome Nat)) =
      (RunResult.raised ⟨false, "boom"⟩, [Event.call]) :=
  (claim_C1 true (fun _ => (Outcome.err ⟨false, "boom"⟩ : Outcome Nat)) ⟨false, "boom"⟩ rfl).1
    rfl

/-- C2: with `max_retries=3, delay=2, backoff=2`, a wrapped operation whose
first three invocations raise the `Error`s `e0, e1, e2` sleeps
`2 * 2 ^ 0 = 2` seconds after attempt 1 and `2 * 2 ^ 1 = 4` seconds after
attempt 2 (strictly increasing), re-invokes the wrapped function from the
beginning after each sleep (three invocations in all), and finally
re-raises the original error object `e2` of the final attempt, not a
wrapped or generic one. -/
theorem claim_C2 (hr : Bool) (attempts : Nat → Outcome α) (e0 e1 e2 : PyError)
    (h0 : attempts 0 = Outcome.err e0) (h1 : attempts 1 = Outcome.err e1)
    (h2 : attempts 2 = Outcome.err e2)
    (hc0 : e0.caught = true) (hc1 : e1.caught = true) (hc2 : e2.caught = true) :
    (retry_operation 3 2 2 hr attempts).1 = RunResult.raised e2 ∧
    sleepTimes (retry_operation 3 2 2 hr attempts).2 = [2 * 2 ^ 0, 2 * 2 ^ 1] ∧
    callCount (retry_operation 3 2 2 hr attempts).2 = 3 ∧
    2 * 2 ^ 0 < 2 * 2 ^ 1 := by
  cases hb0 : (isConnMsg e0.msg && hr) <;> cases hb1 : (isConnMsg e1.msg && hr) <;>
    simp [retry_operation, retryAux, h0, h1, h2, hc0, hc1, hc2, hb0, hb1,
      sleepTimes, callCount, List.filter_append]

/-- A connectivity-class error: lost connection (`Error`, message contains
"connection"). -/
def connErrA : PyError := ⟨true, "2013: Lost connection to MySQL"⟩

/-- A connectivity-class error: connection reset. -/
def connErrB : PyError := ⟨true, "connection reset by peer"⟩

/-- A connectivity-class error: transport interface fault. -/
def connErrC : PyError := ⟨true, "interface fault"⟩

/-- An attempt sequence that raises a connectivity error on all three
attempts. -/
def attemptsAllConn : Nat → Outcome Nat := fun n =>
  if n = 0 then Outcome.err connErrA
  else if n = 1 then Outcome.err connErrB
  else Outcome.err connErrC

/-- Witness for C2 at the concrete connectivity-error sequence. -/
theorem claim_C2_witness :
    (retry_operation 3 2 2 true attemptsAllConn).1 = RunResult.raised connErrC ∧
    sleepTimes (retry_operation 3 2 2 true attemptsAllConn).2 = [2 * 2 ^ 0, 2 * 2 ^ 1] ∧
    callCount (retry_operation 3 2 2 true attemptsAllConn).2 = 3 ∧
    2 * 2 ^ 0 < 2 * 2 ^ 1 :=
  claim_C2 true attemptsAllConn connErrA connErrB connErrC rfl rfl rfl rfl rfl rfl

/-- A `pooling.MySQLConnectionPool` object, abstracted to an identity.
The class attribute `DBConnection._connection_pool` is `Option Pool`
(`none` models Python `None`). -/
structure Pool where
  id : Nat
deriving DecidableEq

/-- `DBConnection.initialize_pool` (lines 50-83 of `db_connection.py`).
`build` is the outcome of `pooling.MySQLConnectionPool(**db_config)` with
the configuration read from the environment at call time: `Except.ok p`
when construction succeeds, `Except.error e` when it raises.  `cur` is the
current `cls._connection_pool`.  The function returns the pool attribute
after the call; the `except Error` / `except Exception` clauses catch
every construction failure and set the attribute to `None`, so the result
is always `Except.ok` — `initialize_pool` itself never raises. -/
def initialize_pool (build : Except PyError Pool) (cur : Option Pool) :
    Except PyError (Option Pool) :=
  match cur with
  | some p => Except.ok (some p)
  | none =>
    match build with
    | Except.ok p => Except.ok (some p)
    | Except.error _ => Except.ok none

/-- `DBConnection._reconnect_pool`, pool-attribute part (lines 110-120):
`DBConnection._connection_pool = None` followed by
`DBConnection.initialize_pool()`.  The old pool `_cur` is discarded
unconditionally before the rebuild. -/
def reconnect_pool (build : Except PyError Pool) (_cur : Option Pool) :
    Except PyError (Option Pool) :=
  initialize_pool build none

/-- C6: `initialize_pool` is idempotent — with a pool already present it
is a no-op leaving the pool unchanged, whatever the construction outcome
would be; on a construction failure it leaves the pool attribute unset
(`None`), from which a later call with a succeeding construction installs
a fresh pool; and it never raises to its caller. -/
theorem claim_C6 (build : Except PyError Pool) (cur : Option Pool) :
    (∀ p : Pool, cur = some p → initialize_pool build cur = Except.ok (some p)) ∧
    (∀ e : PyError, build = Except.error e → initialize_pool build none = Except.ok none) ∧
    (∀ p : Pool, initialize_pool (Except.ok p) none = Except.ok (some p)) ∧
    (∀ e : PyError, initialize_pool build cur ≠ Except.error e) := by
  refine ⟨?_, ?_, ?_, ?_⟩
  · intro p hp
    simp [initialize_pool, hp]
  · intro e he
    simp [initialize_pool, he]
  · intro p
    simp [initialize_pool]
  · intro e
    cases cur <;> cases build <;> simp [initialize_pool]

/-- Witness for C6 at concrete pools: a no-op on an existing pool, an
unset attribute after a failed construction, and a successful retry. -/
theorem claim_C6_witness :
    initialize_pool (Except.ok ⟨1⟩) (some ⟨0⟩) = Except.ok (some ⟨0⟩) ∧
    initialize_pool (Except.error ⟨true, "2003: host unreachable"⟩) none = Except.ok none ∧
    initialize_pool (Except.ok ⟨2⟩) none = Except.ok (some ⟨2⟩) :=
  ⟨(claim_C6 (Except.ok ⟨1⟩) (some ⟨0⟩)).1 ⟨0⟩ rfl,
   (claim_C6 (Except.error ⟨true, "2003: host unreachable"⟩) none).2.1
     ⟨true, "2003: host unreachable"⟩ rfl,
   (claim_C6 (Except.ok ⟨2⟩) none).2.2.1 ⟨2⟩⟩

/-- C3 counterexample: the static `execute_quick_query` is a wrapped
operation, but its `args[0]` is the query string, which has no
`_reconnect_pool` attribute — so a connectivity-class error (a
`mysql.connector.Error` whose message contains "connection") on its first
attempt is retried after the backoff sleep with no pool reinitialization
at all: the trace holds a retry invocation but zero reconnect events. -/
theorem claim_C3_counterexample :
    isConnMsg connErrA.msg = true ∧ connErrA.caught = true ∧
    (retry_operation 3 2 2 quickQueryHasReconnect
        (fun n => if n = 0 then Outcome.err connErrA else Outcome.ok 7)) =
      (RunResult.ret 7, [Event.call, Event.sleep 2, Event.call]) ∧
    reconnectCount [Event.call, Event.sleep 2, Event.call] = 0 := by
  decide

/-- C3 (amended): pool reinitialization before the retry happens only for
wrapped operations whose first positional argument exposes
`_reconnect_pool` (the bound instance methods) and only when the error's
message contains "connection" or "interface"; for such an error the trace
is invocation, backoff sleep, pool reinitialization, then the retry
invocation — and the reinitialization discards the old pool
unconditionally and installs whatever the current configuration builds.
The static `execute_quick_query` never reinitializes the pool
(counterexample). -/
theorem claim_C3 (attempts : Nat → Outcome α) (e : PyError) (v : α)
    (h0 : attempts 0 = Outcome.err e) (h1 : attempts 1 = Outcome.ok v)
    (hc : e.caught = true) (hm : isConnMsg e.msg = true) :
    retry_operation 3 2 2 instanceHasReconnect attempts =
      (RunResult.ret v, [Event.call, Event.sleep 2, Event.reconnect, Event.call]) ∧
    (∀ (build : Except PyError Pool) (o1 o2 : Option Pool),
      reconnect_pool build o1 = reconnect_pool build o2) ∧
    (∀ (p : Pool) (old : Option Pool),
      reconnect_pool (Except.ok p) old = Except.ok (some p)) := by
  refine ⟨?_, fun build o1 o2 => rfl, fun p old => rfl⟩
  simp [retry_operation, retryAux, h0, h1, hc, hm, instanceHasReconnect]

/-- Witness for C3 at a concrete connectivity failure followed by
success. -/
theorem claim_C3_witness :
    retry_operation 3 2 2 instanceHasReconnect
        (fun n => if n = 0 then Outcome.err connErrA else Outcome.ok 7) =
      (RunResult.ret 7, [Event.call, Event.sleep 2, Event.reconnect, Event.call]) :=
  (claim_C3 (fun n => if n = 0 then Outcome.err connErrA else Outcome.ok 7)
    connErrA 7 rfl rfl rfl (by decide)).1

/-- State of the logical transaction scope on the borrowed connection.
`committed` are durable writes; `pending` are writes applied by statements
of the open transaction but not yet committed.  Writes are abstract
identifiers. -/
structure TxState where
  committed : List Nat
  pending : List Nat
deriving DecidableEq

/-- What a subsequent `fetch_one`/`fetch_all` in the same transaction
scope can see: durable writes plus the scope's own uncommitted writes. -/
def visible (st : TxState) : List Nat := st.committed ++ st.pending

/-- Outcome of `cursor.execute(query, params)` for a mutating statement:
either the writes it applies plus `cursor.lastrowid` (`none` models the
Python `None`/`0` of a statement without an auto-generated id), or the
`Error` it raises. -/
inductive ExecOutcome where
  | ok (writes : List Nat) (lastrowid : Option Nat)
  | fail (e : PyError)
deriving DecidableEq

/-- `DBConnection.execute_query` (lines 123-144 of `db_connection.py`),
one undecorated invocation.  `connAlive` is
`self.connection and self.connection.is_connected()`; `getConnOk` is the
result of the lazy `self._get_connection()` re-acquisition; `execO` and
`commitErr` are the driver outcomes of `cursor.execute` and
`self.connection.commit()`.  The `except Error` clause rolls the active
transaction back (clearing `pending`) and re-raises the original error;
cursor creation/close and `rollback` on the live connection are modelled
as non-failing.  Returns the propagated result and the transaction state
after the call. -/
def execute_query (connAlive getConnOk : Bool) (execO : ExecOutcome)
    (commitErr : Option PyError) (st : TxState) :
    Except PyError (Option Nat) × TxState :=
  if connAlive || getConnOk then
    match execO with
    | ExecOutcome.fail e =>
      -- except Error: rollback, raise e
      (Except.error e, ⟨st.committed, []⟩)
    | ExecOutcome.ok ws lastid =>
      match commitErr with
      | some e => (Except.error e, ⟨st.committed, []⟩)
      | none => (Except.ok lastid, ⟨st.committed ++ st.pending ++ ws, []⟩)
  else
    -- raise Error("Failed to establish database connection");
    -- self.connection is unset here, so the except clause skips rollback
    (Except.error ⟨true, "Failed to establish database connection"⟩, st)

/-- C4: with a connection available, `execute_query` on success commits
the transaction and returns `Except.ok lastrowid` (`none` for statements
without an auto-generated id); on a failing statement or a failing commit
it rolls back before re-raising the original error, so the writes visible
to a subsequent fetch in the same transaction scope are exactly the
previously committed ones — no partial write survives. -/
theorem claim_C4 (connAlive getConnOk : Bool) (execO : ExecOutcome)
    (commitErr : Option PyError) (st : TxState)
    (hconn : (connAlive || getConnOk) = true) :
    (∀ ws lastid, execO = ExecOutcome.ok ws lastid → commitErr = none →
      execute_query connAlive getConnOk execO commitErr st =
        (Except.ok lastid, ⟨st.committed ++ st.pending ++ ws, []⟩)) ∧
    (∀ e, execO = ExecOutcome.fail e →
      execute_query connAlive getConnOk execO commitErr st = (Except.error e, ⟨st.committed, []⟩) ∧
      visible (execute_query connAlive getConnOk execO commitErr st).2 = st.committed) ∧
    (∀ ws lastid e, execO = ExecOutcome.ok ws lastid → commitErr = some e →
      execute_query connAlive getConnOk execO commitErr st = (Except.error e, ⟨st.committed, []⟩) ∧
      visible (execute_query connAlive getConnOk execO commitErr st).2 = st.committed) := by
  refine ⟨?_, ?_, ?_⟩
  · intro ws lastid he hcm
    simp [execute_query, hconn, he, hcm]
  · intro e he
    simp [execute_query, hconn, he, visible]
  · intro ws lastid e he hcm
    simp [execute_query, hconn, he, hcm, visible]

/-- Witness for C4: a statement violating a constraint fails after write 9
was applied to the transaction; the call rolls back, re-raises the
constraint error, and the committed writes [1, 2] are all that remains
visible. -/
theorem claim_C4_witness :
    execute_query true false (ExecOutcome.fail ⟨true, "1062: duplicate entry"⟩) none
        ⟨[1, 2], [9]⟩ =
      (Except.error ⟨true, "1062: duplicate entry"⟩, ⟨[1, 2], []⟩) ∧
    visible (execute_query true false (ExecOutcome.fail ⟨true, "1062: duplicate entry"⟩) none
        ⟨[1, 2], [9]⟩).2 = [1, 2] :=
  (claim_C4 true false (ExecOutcome.fail ⟨true, "1062: duplicate entry"⟩) none
    ⟨[1, 2], [9]⟩ rfl).2.1 ⟨true, "1062: duplicate entry"⟩ rfl

/-- A result row as produced by `cursor(dictionary=True)`: an association
of column names to values. -/
def Row : Type := List (String × Nat)

instance : DecidableEq Row := by
  unfold Row
  infer_instance

/-- `DBConnection.fetch_one` (lines 146-164), one undecorated invocation.
`rows` is the statement's result set in order; `cursor.fetchone()` on a
buffered cursor yields its first row, or Python `None` when it is empty.
`execErr` is an `Error` raised by `cursor.execute`, re-raised by the
except clause. -/
def fetch_one (connAlive getConnOk : Bool) (execErr : Option PyError)
    (rows : List Row) : Except PyError (Option Row) :=
  if connAlive || getConnOk then
    match execErr with
    | some e => Except.error e
    | none => Except.ok rows.head?
  else
    Except.error ⟨true, "Failed to establish database connection"⟩

/-- `DBConnection.fetch_all` (lines 166-184), one undecorated invocation:
`cursor.fetchall()` yields the whole result set as a list — the empty
list, not `None`, when no rows match. -/
def fetch_all (connAlive getConnOk : Bool) (execErr : Option PyError)
    (rows : List Row) : Except PyError (List Row) :=
  if connAlive || getConnOk then
    match execErr with
    | some e => Except.error e
    | none => Except.ok rows
  else
    Except.error ⟨true, "Failed to establish database connection"⟩

/-- C5: on an empty result set `fetch_one` returns `none` (Python `None`,
a value distinct from an empty row mapping) and `fetch_all` returns the
empty list (not `None` — its success type is a list, never an optional);
on a non-empty result set `fetch_one` returns exactly the first row as a
column-to-value mapping and `fetch_all` returns the whole ordered
sequence. -/
theorem claim_C5 (connAlive getConnOk : Bool) (rows : List Row)
    (hconn : (connAlive || getConnOk) = true) :
    (rows = [] →
      fetch_one connAlive getConnOk none rows = Except.ok none ∧
      fetch_all connAlive getConnOk none rows = Except.ok []) ∧
    (∀ r rs, rows = r :: rs →
      fetch_one connAlive getConnOk none rows = Except.ok (some r) ∧
      fetch_all connAlive getConnOk none rows = Except.ok (r :: rs)) ∧
    (some ([] : Row) ≠ (none : Option Row)) := by
  refine ⟨?_, ?_, by simp⟩
  · intro h
    simp [fetch_one, fetch_all, hconn, h]
  · intro r rs h
    simp [fetch_one, fetch_all, hconn, h]

/-- Witness for C5: a concrete empty result set and a concrete one-row
result set. -/
theorem claim_C5_witness :
    (fetch_one true false none [] = Except.ok none ∧
      fetch_all true false none [] = Except.ok []) ∧
    (fetch_one true false none [[("test_value", 1)]] = Except.ok (some [("test_value", 1)]) ∧
      fetch_all true false none [[("test_value", 1)]] = Except.ok [[("test_value", 1)]]) :=
  ⟨(claim_C5 true false [] rfl).1 rfl,
   (claim_C5 true false [[("test_value", 1)]] rfl).2.1 [("test_value", 1)] [] rfl⟩

/-- `DBConnection.is_connected` (lines 245-256).  `connSome` is
`self.connection` being non-`None`; `drvConnected` is the driver's own
`self.connection.is_connected()` flag; `probeErr` is an `Error` raised
while creating the cursor, executing the `SELECT 1` probe, or closing the
cursor (the failures these driver calls produce are instances of
`mysql.connector.Error`, which the `except Error` clause matches).  The
result is always `Except.ok`: probe failures become `false`, never an
exception. -/
def is_connected (connSome drvConnected : Bool) (probeErr : Option PyError) :
    Except PyError Bool :=
  if connSome && drvConnected then
    match probeErr with
    | none => Except.ok true
    | some _ => Except.ok false
  else
    Except.ok false

/-- C7: `is_connected` returns `true` only when a connection is present,
the driver reports it connected, and the `SELECT 1` round-trip raised
nothing; any probe error yields the return value `false`; and on every
input the call returns a boolean rather than propagating an exception. -/
theorem claim_C7 (connSome drvConnected : Bool) (probeErr : Option PyError) :
    (∃ b, is_connected connSome drvConnected probeErr = Except.ok b) ∧
    (is_connected connSome drvConnected probeErr = Except.ok true →
      connSome = true ∧ drvConnected = true ∧ probeErr = none) ∧
    (∀ e, probeErr = some e →
      is_connected connSome drvConnected probeErr = Except.ok false) := by
  refine ⟨?_, ?_, ?_⟩
  · cases connSome <;> cases drvConnected <;> cases probeErr <;>
      simp [is_connected]
  · cases connSome <;> cases drvConnected <;> cases probeErr <;>
      simp [is_connected]
  · intro e he
    cases connSome <;> cases drvConnected <;> simp [is_connected, he]

/-- Witness for C7: a forcibly closed socket makes the probe raise a lost
connection error; the call returns `false`, raising nothing. -/
theorem claim_C7_witness :
    is_connected true true (some connErrA) = Except.ok false :=
  (claim_C7 true true (some connErrA)).2.2 connErrA rfl

/-- The attribute state of a `DBConnection` handle that `close` reads and
writes: whether `self._cursor` is non-`None` and whether
`self.connection` is non-`None`. -/
structure Handle where
  cursor : Bool
  conn : Bool
deriving DecidableEq

/-- A driver call made during release: `self._cursor.close()` or
`self.connection.close()` (the latter returns the connection to the
pool). -/
inductive CloseEvent where
  | cursorClose
  | connClose
deriving DecidableEq

/-- `DBConnection.close` (lines 233-243 of `db_connection.py`).
`cursorCloseErr` / `connCloseErr` are `Error`s the two driver close calls
may raise; the surrounding `except Error` clause swallows them.  Returns
the handle attributes after the call, the driver calls made, and the
exception propagated to the caller — `none` on every path.  Note that the
source clears `self._cursor` but never clears `self.connection`. -/
def close (h : Handle) (cursorCloseErr _connCloseErr : Option PyError) :
    Handle × List CloseEvent × Option PyError :=
  if h.cursor then
    match cursorCloseErr with
    | some _ =>
      -- cursor.close() raised: caught and logged; `self._cursor = None`
      -- and the connection close are skipped
      (h, [CloseEvent.cursorClose], none)
    | none =>
      if h.conn then
        -- connection.close() runs; an Error from it is caught and logged
        (⟨false, h.conn⟩, [CloseEvent.cursorClose, CloseEvent.connClose], none)
      else
        (⟨false, h.conn⟩, [CloseEvent.cursorClose], none)
  else
    -- an Error raised by connection.close() is caught and logged either way
    if h.conn then
      (h, [CloseEvent.connClose], none)
    else
      (h, [], none)

/-- `DBConnection.__exit__` (lines 263-265): whatever exception
information `excInfo` the runtime passes (none for a normal exit, some
for an error exit), it performs one `self.close()` and returns `None`,
i.e. never suppresses the body's exception (`suppress = false`). -/
def exitContext (h : Handle) (_excInfo : Option PyError)
    (cursorCloseErr connCloseErr : Option PyError) :
    (Handle × List CloseEvent × Option PyError) × Bool :=
  (close h cursorCloseErr connCloseErr, false)

/-- C8 counterexample: a second `close()` on a freshly released handle is
not a no-op — because `self.connection` is never cleared, the second call
invokes `connection.close()` on the already-returned connection again
(one more driver close call), though it still raises nothing. -/
theorem claim_C8_counterexample :
    (close ⟨true, true⟩ none none).2.1 = [CloseEvent.cursorClose, CloseEvent.connClose] ∧
    (close (close ⟨true, true⟩ none none).1 none none).2.1 = [CloseEvent.connClose] ∧
    (close (close ⟨true, true⟩ none none).1 none none).2.2 = none := by
  decide

/-- C8 (amended): `close` first closes the held cursor and then the
connection (in that order), and never raises — any `Error` from either
driver close is swallowed — so repeated calls are safe; on a repeated
call the cursor close is skipped (the cursor reference was cleared), but
because `self.connection` is never cleared each repeated call invokes
`connection.close()` again rather than doing nothing (counterexample).
Leaving a with-scope, normally or via an error, performs exactly one
`close` and never suppresses the body's exception. -/
theorem claim_C8 (h : Handle) (cursorCloseErr connCloseErr excInfo : Option PyError) :
    ((close h cursorCloseErr connCloseErr).2.2 = none) ∧
    (h.cursor = true → h.conn = true → cursorCloseErr = none →
      (close h cursorCloseErr connCloseErr).2.1 =
        [CloseEvent.cursorClose, CloseEvent.connClose] ∧
      (close h cursorCloseErr connCloseErr).1.cursor = false) ∧
    (exitContext h excInfo cursorCloseErr connCloseErr =
      (close h cursorCloseErr connCloseErr, false)) := by
  refine ⟨?_, ?_, rfl⟩
  · unfold close
    cases hc : h.cursor <;> cases hn : h.conn <;> cases cursorCloseErr <;> simp
  · intro hcur hcn hce
    simp [close, hcur, hcn, hce]

/-- Witness for C8: a handle holding a cursor and a connection, released
inside a with-scope that is left via an exception; the cursor is closed,
then the connection, nothing is raised, and the exception is not
suppressed. -/
theorem claim_C8_witness :
    (close ⟨true, true⟩ none none).2.2 = none ∧
    (close ⟨true, true⟩ none none).2.1 = [CloseEvent.cursorClose, CloseEvent.connClose] ∧
    exitContext ⟨true, true⟩ (some badSqlErr) none none =
      (close ⟨true, true⟩ none none, false) :=
  ⟨(claim_C8 ⟨true, true⟩ none none (some badSqlErr)).1,
   ((claim_C8 ⟨true, true⟩ none none (some badSqlErr)).2.1 rfl rfl rfl).1,
   (claim_C8 ⟨true, true⟩ none none (some badSqlErr)).2.2⟩

/-- The mapping returned by `Login.login`: the `login_succeeded` key is
always present; `reason` models the optional `reason` key. -/
structure LoginResult where
  login_succeeded : Bool
  reason : Option String
deriving DecidableEq

/-- The mapping returned by `Login.validate_password`; `pwMatches`
models its Python key named "matches". -/
structure ValidateResult where
  hashed_password_found : Bool
  pwMatches : Bool
deriving DecidableEq

/-- `Login.validate_password` (lines 65-107 of `login.py`).  `fetchRes` is
the outcome of `fetch_one` on the password query: an exception, no row,
or a row whose `password` column is `none` (SQL NULL) or a string;
`checkpwRes` is the outcome of `bcrypt.checkpw`.  Every exception is
caught and becomes `⟨false, false⟩`; a NULL or empty stored hash is falsy
in Python and also yields `⟨false, false⟩`. -/
def validate_password (fetchRes : Except PyError (Option (Option String)))
    (checkpwRes : Except PyError Bool) : ValidateResult :=
  match fetchRes with
  | Except.error _ => ⟨false, false⟩
  | Except.ok none => ⟨false, false⟩
  | Except.ok (some hp) =>
    match hp with
    | none => ⟨false, false⟩
    | some s =>
      if s = "" then ⟨false, false⟩
      else
        match checkpwRes with
        | Except.error _ => ⟨false, false⟩
        | Except.ok m => ⟨true, m⟩

/-- `Login.login` (lines 23-63 of `login.py`).  `emailFetch` is the
outcome of the email-lookup `fetch_one` (which, via the retry decorator,
may raise the final `mysql.connector.Error` or another exception);
`pwFetch` and `checkpwRes` feed the inner `validate_password` call.  The
`except mysql.connector.Error` and `except Exception` clauses turn every
exception into a result mapping, so the function returns `Except.ok` on
every path. -/
def login (emailFetch : Except PyError (Option Row))
    (pwFetch : Except PyError (Option (Option String)))
    (checkpwRes : Except PyError Bool) : Except PyError LoginResult :=
  match emailFetch with
  | Except.error e =>
    if e.caught then
      Except.ok ⟨false, some ("Database error: " ++ e.msg)⟩
    else
      Except.ok ⟨false, some ("Unexpected error: " ++ e.msg)⟩
  | Except.ok none => Except.ok ⟨false, some "Email not found"⟩
  | Except.ok (some _) =>
    if (validate_password pwFetch checkpwRes).pwMatches then
      Except.ok ⟨true, none⟩
    else
      Except.ok ⟨false, some "Invalid password"⟩

/-- C9: `Login.login` never propagates an exception — on every
combination of database and bcrypt outcomes it returns a `LoginResult`
mapping (which carries the `login_succeeded` key by construction), and
when the database lookup raises, the result is a failure mapping whose
reason describes the error. -/
theorem claim_C9 (emailFetch : Except PyError (Option Row))
    (pwFetch : Except PyError (Option (Option String)))
    (checkpwRes : Except PyError Bool) :
    (∃ r : LoginResult, login emailFetch pwFetch checkpwRes = Except.ok r) ∧
    (∀ e, emailFetch = Except.error e →
      login emailFetch pwFetch checkpwRes =
        Except.ok ⟨false, some ((if e.caught then "Database error: " else "Unexpected error: ")
          ++ e.msg)⟩) := by
  constructor
  · cases emailFetch with
    | error e =>
      cases he : e.caught <;> simp [login, he]
    | ok o =>
      cases o with
      | none => exact ⟨_, rfl⟩
      | some r =>
        by_cases hm : (validate_password pwFetch checkpwRes).pwMatches <;>
          simp [login, hm]
  · intro e he
    cases hc : e.caught <;> simp [login, he, hc]

/-- Witness for C9: the retry decorator exhausted its attempts and
re-raised a lost-connection `Error`; `login` turns it into a failure
mapping rather than letting it reach the caller. -/
theorem claim_C9_witness :
    login (Except.error connErrA) (Except.ok none) (Except.ok false) =
      Except.ok ⟨false, some ("Database error: " ++ connErrA.msg)⟩ :=
  (claim_C9 (Except.error connErrA) (Except.ok none) (Except.ok false)).2 connErrA rfl

/-- Python `query.strip()`: drop whitespace from both ends. -/
def stripChars (cs : List Char) : List Char :=
  ((cs.dropWhile Char.isWhitespace).reverse.dropWhile Char.isWhitespace).reverse

/-- The dispatch test at line 297 of `db_connection.py`:
`query.strip().upper().startswith('SELECT')`. -/
def isSelectQuery (q : String) : Bool :=
  listStartsWith ("SELECT".toList) (upperChars (stripChars q.toList))

/-- The value `execute_quick_query` returns: the fetched row set of a
SELECT, or `cursor.lastrowid` of a mutating statement. -/
inductive QuickResult where
  | rows (rs : List Row)
  | lastId (v : Option Nat)
deriving DecidableEq

/-- Side effects of a successful `execute_quick_query` call: whether
`connection.commit()` ran and whether the ad-hoc connection was closed
before returning. -/
structure QuickTrace where
  committed : Bool
  connClosed : Bool
deriving DecidableEq

/-- `DBConnection.execute_quick_query` (lines 277-311 of
`db_connection.py`), one undecorated invocation.  `connectErr` is an
exception from `mysql.connector.connect`, `execErr` one from
`cursor.execute`; `fetched` is the result set `fetchall` would return and
`lastrowid` the cursor's last-inserted-row identifier.  On the SELECT
branch it returns the rows without committing; otherwise it commits and
returns `lastrowid`; both success paths close the ad-hoc connection
before returning. -/
def execute_quick_query (query : String) (connectErr : Option PyError)
    (execErr : Option PyError) (fetched : List Row) (lastrowid : Option Nat) :
    Except PyError (QuickResult × QuickTrace) :=
  match connectErr with
  | some e => Except.error e
  | none =>
    match execErr with
    | some e => Except.error e
    | none =>
      if isSelectQuery query then
        Except.ok (QuickResult.rows fetched, ⟨false, true⟩)
      else
        Except.ok (QuickResult.lastId lastrowid, ⟨true, true⟩)

/-- C10: when connecting and executing succeed, `execute_quick_query`
dispatches on the query text — a query whose stripped text starts
case-insensitively with SELECT returns the full fetched row set (no
commit); any other query commits and returns the cursor's
last-inserted-row identifier; in both cases the ad-hoc connection is
closed before returning. -/
theorem claim_C10 (query : String) (fetched : List Row) (lastrowid : Option Nat) :
    (isSelectQuery query = true →
      execute_quick_query query none none fetched lastrowid =
        Except.ok (QuickResult.rows fetched, ⟨false, true⟩)) ∧
    (isSelectQuery query = false →
      execute_quick_query query none none fetched lastrowid =
        Except.ok (QuickResult.lastId lastrowid, ⟨true, true⟩)) := by
  constructor
  · intro hs
    simp [execute_quick_query, hs]
  · intro hs
    simp [execute_quick_query, hs]

/-- Witness for C10: a lower-case SELECT with leading whitespace returns
its rows with the connection closed; an INSERT commits and returns the
new row id with the connection closed. -/
theorem claim_C10_witness :
    execute_quick_query "  select 1" none none [[("1", 1)]] none =
      Except.ok (QuickResult.rows [[("1", 1)]], ⟨false, true⟩) ∧
    execute_quick_query "INSERT INTO User VALUES (1)" none none [] (some 5) =
      Except.ok (QuickResult.lastId (some 5), ⟨true, true⟩) :=
  ⟨(claim_C10 "  select 1" [[("1", 1)]] none).1 (by decide),
   (claim_C10 "INSERT INTO User VALUES (1)" [] (some 5)).2 (by decide)⟩

end Mooda
